import Mathlib

/-!
Shallow embedding of `crm_override/public/js/lead_list.js`: the
"Create Segment" list-view action for Lead records.  JS values that the
handler inspects are modelled by `JSVal`; the click handler, the prompt
submission and the remote-call success callback are modelled as total
Lean functions (the callback returns `Except` because a JS property
access on `undefined`/`null` throws a TypeError).
-/

/-- A JS value as far as the handler observes it: `undefined`, `null`,
strings, and plain objects (association lists of fields). -/
inductive JSVal where
  | undefined
  | null
  | str (s : String)
  | obj (fields : List (String × JSVal))

/-- JS truthiness restricted to the values of `JSVal`:
`undefined`, `null` and `""` are falsy, everything else truthy.
The source tests `!r.exc` with it. -/
def truthy : JSVal → Bool
  | .undefined => false
  | .null => false
  | .str s => !(s == "")
  | .obj _ => true

/-- JS property access `v.key`.  On `undefined`/`null` it throws a
TypeError (`none`); on an object a missing field reads as `undefined`;
on a string primitive the fields we care about read as `undefined`. -/
def getProp : JSVal → String → Option JSVal
  | .undefined, _ => none
  | .null, _ => none
  | .str _, _ => some .undefined
  | .obj fields, key => some ((fields.lookup key).getD .undefined)

/-- JS string coercion as used by the `__('... {0} ...', [v])` template
substitution in the source: `undefined` prints as `"undefined"`. -/
def jsToString : JSVal → String
  | .undefined => "undefined"
  | .null => "null"
  | .str s => s
  | .obj _ => "[object Object]"

/-- A record of the list view, as returned by `get_checked_items`:
the handler only reads its `name`; the remaining document fields are
carried opaquely. -/
structure LeadRecord where
  name : String
  doc : List (String × JSVal)

/-- The observable state of the list view: which items are currently
checked, and the rest of the displayed rows (which the handler never
reads). -/
structure ListViewState where
  checked_items : List LeadRecord
  rows : List LeadRecord

/-- `listview.get_checked_items()`. -/
def get_checked_items (lv : ListViewState) : List LeadRecord :=
  lv.checked_items

/-- One field descriptor of the `frappe.prompt` dialog, as declared in
the source (`label`, `fieldname`, `fieldtype`, `reqd`). -/
structure PromptField where
  label : String
  fieldname : String
  fieldtype : String
  reqd : Bool

/-- The two fields the source declares for the Create Lead Segment
prompt: a required Data field `segmentname` and an optional Small Text
field `description`. -/
def segmentPromptFields : List PromptField :=
  [ { label := "Segment Name", fieldname := "segmentname",
      fieldtype := "Data", reqd := true },
    { label := "Description", fieldname := "description",
      fieldtype := "Small Text", reqd := false } ]

/-- The `values` object the prompt hands to its submit callback:
fieldname/value pairs; a field the user left untouched is absent and
reads as `undefined`. -/
def FormValues := List (String × JSVal)

/-- `values.fname`: reading a field off the prompt's values object. -/
def fieldValue (vs : FormValues) (fname : String) : JSVal :=
  (List.lookup fname vs).getD .undefined

/-- Modelled from the spec: the host framework's `frappe.prompt` form
layer (not part of this repository) accepts a submission only when
every field declared `reqd` carries a non-empty value; otherwise the
submit callback never runs. -/
def formLayerAccepts (fields : List PromptField) (vs : FormValues) : Bool :=
  fields.all (fun f => !f.reqd || truthy (fieldValue vs f.fieldname))

/-- The `args` object of the `frappe.call`: exactly three entries, as
in the source (`segmentname`, `lead_names`, `description`). -/
structure RemoteCallArgs where
  segmentname : JSVal
  lead_names : List String
  description : JSVal

/-- The remote call issued by the submit callback: a method name plus
its `args`. -/
structure RemoteCall where
  method : String
  args : RemoteCallArgs

/-- The prompt's submit callback: builds the `frappe.call` from the
captured selection and the form values.  `lead_names` is
`selected.map(lead => lead.name)`. -/
def submitSegmentPrompt (selected : List LeadRecord) (values : FormValues) :
    RemoteCall :=
  { method := "crm_override.crm_override.api.create_lead_segment",
    args := { segmentname := fieldValue values "segmentname",
              lead_names := selected.map (fun l => l.name),
              description := fieldValue values "description" } }

/-- Outcome of clicking the actions-menu entry: either the empty-selection
notice (and nothing else), or the prompt is opened with the selection
captured in the submit closure. -/
inductive ClickOutcome where
  | abort (notice : String)
  | prompt (fields : List PromptField) (title : String)
      (primary_label : String) (captured : List LeadRecord)

/-- The `Create Segment` menu handler: read the checked items, abort
with a notice when there are none (`!selected.length`), otherwise open
the prompt, capturing `selected`. -/
def createSegmentClick (lv : ListViewState) : ClickOutcome :=
  if (get_checked_items lv).length = 0 then
    ClickOutcome.abort "Please select at least one lead."
  else
    ClickOutcome.prompt segmentPromptFields "Create Lead Segment" "Create"
      (get_checked_items lv)

/-- The whole client flow up to the remote call: the click happens at
list-view state `lvAtClick`; by submission time the list view may have
changed to `lvAtSubmit`, but the submit closure uses the selection
captured at click time, so `lvAtSubmit` plays no role in the call. -/
def createSegmentFlow (lvAtClick lvAtSubmit : ListViewState)
    (values : FormValues) : Option RemoteCall :=
  match createSegmentClick lvAtClick with
  | .abort _ => none
  | .prompt fields _ _ captured =>
      if formLayerAccepts fields values then
        some (submitSegmentPrompt captured values)
      else
        none

/-- A thrown JS error; the only one this callback can raise is the
TypeError from `r.message.segmentname` when `r.message` is
`undefined`/`null`. -/
inductive JSError where
  | typeError

/-- The response object handed to the `frappe.call` callback. -/
structure Response where
  exc : JSVal
  message : JSVal

/-- The observable effects of the callback: the success message it
shows (if any) and whether it called `listview.refresh()`. -/
structure CallbackEffects where
  success_message : Option String
  refreshed : Bool

/-- The text of the success message: `__('Lead Segment {0} created
successfully', [x])`. -/
def successMessageText (segname : String) : String :=
  "Lead Segment " ++ segname ++ " created successfully"

/-- The `frappe.call` callback: does nothing when `r.exc` is truthy;
otherwise it reads `r.message.segmentname` (a TypeError when
`r.message` is `undefined`/`null`), shows the success message and
refreshes the list. -/
def segmentCallback (r : Response) : Except JSError CallbackEffects :=
  if truthy r.exc then
    .ok { success_message := none, refreshed := false }
  else
    match getProp r.message "segmentname" with
    | none => .error .typeError
    | some v =>
        .ok { success_message := some (successMessageText (jsToString v)),
              refreshed := true }

/-- Whether the callback showed a success message. -/
def showsSuccess : Except JSError CallbackEffects → Bool
  | .ok e => e.success_message.isSome
  | .error _ => false

/-- Whether the callback refreshed the list view. -/
def didRefresh : Except JSError CallbackEffects → Bool
  | .ok e => e.refreshed
  | .error _ => false

/-- Whether a JS value is a plain object, as the remote contract
promises of a successful payload. -/
def isObj : JSVal → Bool
  | .obj _ => true
  | _ => false

/-- `charsStartWith hay needle`: `hay` begins with `needle`. -/
def charsStartWith : List Char → List Char → Bool
  | _, [] => true
  | [], _ :: _ => false
  | a :: as, b :: bs => a == b && charsStartWith as bs

/-- `charsContain hay needle`: `needle` occurs contiguously in `hay`. -/
def charsContain : List Char → List Char → Bool
  | [], needle => needle.isEmpty
  | a :: as, needle => charsStartWith (a :: as) needle || charsContain as needle

/-- Substring test on strings, used to state "the message includes the
name". -/
def strContains (hay needle : String) : Bool :=
  charsContain hay.data needle.data

/-! Concrete inputs used to witness the theorems below, taken from the
end-to-end scenario (two selected leads, segment "seg1"). -/

def wLead1 : LeadRecord := { name := "CRM-LEAD-2025-00196", doc := [] }

def wLead2 : LeadRecord := { name := "CRM-LEAD-2025-00197", doc := [] }

def wListView : ListViewState := { checked_items := [wLead1, wLead2], rows := [] }

def emptyListView : ListViewState := { checked_items := [], rows := [] }

def wValues : FormValues :=
  [("segmentname", JSVal.str "seg1"), ("description", JSVal.str "Test Segment")]

def wCall : RemoteCall :=
  { method := "crm_override.crm_override.api.create_lead_segment",
    args := { segmentname := JSVal.str "seg1",
              lead_names := ["CRM-LEAD-2025-00196", "CRM-LEAD-2025-00197"],
              description := JSVal.str "Test Segment" } }

/-- A list-view state with the same checked items as `wListView` but
different remaining rows. -/
def wListViewAlt : ListViewState :=
  { checked_items := [wLead1, wLead2], rows := [wLead2] }

/-- Form values where the optional description was left untouched. -/
def wValuesNoDesc : FormValues := [("segmentname", JSVal.str "seg1")]

/-- The remote call built from `wValuesNoDesc`: the absent description
is forwarded as `undefined`. -/
def wCallNoDesc : RemoteCall :=
  { method := "crm_override.crm_override.api.create_lead_segment",
    args := { segmentname := JSVal.str "seg1",
              lead_names := ["CRM-LEAD-2025-00196", "CRM-LEAD-2025-00197"],
              description := JSVal.undefined } }

/-! ## Helper lemmas -/

/-- Inversion for the click handler: whenever a prompt is opened, its
fields are the declared ones and the captured selection is exactly the
checked items at click time. -/
theorem createSegmentClick_prompt_inv (lv : ListViewState)
    (fields : List PromptField) (t p : String) (captured : List LeadRecord)
    (h : createSegmentClick lv = ClickOutcome.prompt fields t p captured) :
    fields = segmentPromptFields ∧ captured = get_checked_items lv := by
  unfold createSegmentClick at h
  split at h
  · exact ClickOutcome.noConfusion h
  · injection h with h1 h2 h3 h4
    exact ⟨h1.symm, h4.symm⟩

theorem charsStartWith_append (xs ys : List Char) :
    charsStartWith (xs ++ ys) xs = true := by
  induction xs with
  | nil => cases ys <;> rfl
  | cons c cs ih => simp [charsStartWith, ih]

theorem charsContain_of_start (xs ys : List Char) :
    charsContain (xs ++ ys) xs = true := by
  cases xs with
  | nil =>
      cases ys with
      | nil => rfl
      | cons b bs => simp [charsContain, charsStartWith]
  | cons c cs =>
      have h := charsStartWith_append (c :: cs) ys
      simp only [List.cons_append] at h ⊢
      simp [charsContain, h]

theorem charsContain_append_left (pre rest needle : List Char)
    (h : charsContain rest needle = true) :
    charsContain (pre ++ rest) needle = true := by
  induction pre with
  | nil => simpa using h
  | cons c cs ih => simp [charsContain, ih]

/-- The formatted success message always contains the interpolated
name as a substring. -/
theorem strContains_successMessageText (n : String) :
    strContains (successMessageText n) n = true := by
  unfold strContains successMessageText
  have hdata : ("Lead Segment " ++ n ++ " created successfully").data
      = "Lead Segment ".data ++ (n.data ++ " created successfully".data) := by
    simp [String.data_append]
  rw [hdata]
  exact charsContain_append_left _ _ _
    (charsContain_of_start n.data " created successfully".data)

/-! ## Claim theorems -/

/-- C2: invoking the Create Segment action with an empty selection
shows the "Please select at least one lead." notice and returns: the
prompt is never opened and no remote call is ever issued. -/
theorem c2_empty_selection_aborts (lv lv2 : ListViewState)
    (values : FormValues) (h : get_checked_items lv = []) :
    createSegmentClick lv
      = ClickOutcome.abort "Please select at least one lead."
    ∧ createSegmentFlow lv lv2 values = none := by
  have hc : createSegmentClick lv
      = ClickOutcome.abort "Please select at least one lead." := by
    unfold createSegmentClick
    rw [h]
    rfl
  refine ⟨hc, ?_⟩
  unfold createSegmentFlow
  rw [hc]

theorem c2_witness :
    get_checked_items emptyListView = []
    ∧ (createSegmentClick emptyListView
        = ClickOutcome.abort "Please select at least one lead."
      ∧ createSegmentFlow emptyListView emptyListView [] = none) :=
  ⟨rfl, c2_empty_selection_aborts emptyListView emptyListView [] rfl⟩

/-- C3: whenever the flow issues a remote call, its `lead_names`
argument is exactly the names of the records checked at click time, in
order, with nothing added, removed or deduplicated. -/
theorem c3_lead_names_exact (lv lv2 : ListViewState) (values : FormValues)
    (rc : RemoteCall) (h : createSegmentFlow lv lv2 values = some rc) :
    rc.args.lead_names = (get_checked_items lv).map (fun l => l.name) := by
  unfold createSegmentFlow at h
  split at h
  · exact Option.noConfusion h
  · rename_i fields t p captured heq
    split at h
    · injection h with h1
      subst h1
      rw [(createSegmentClick_prompt_inv lv fields t p captured heq).2]
      rfl
    · exact Option.noConfusion h

theorem c3_witness :
    createSegmentFlow wListView emptyListView wValues = some wCall
    ∧ wCall.args.lead_names
      = (get_checked_items wListView).map (fun l => l.name) :=
  ⟨rfl, c3_lead_names_exact wListView emptyListView wValues wCall rfl⟩

/-- C4: on a response carrying an exception (truthy `exc`), the
callback shows no success message and does not refresh the list. -/
theorem c4_error_no_success (r : Response) (h : truthy r.exc = true) :
    segmentCallback r
      = Except.ok { success_message := none, refreshed := false } := by
  unfold segmentCallback
  rw [h]
  rfl

theorem c4_witness :
    truthy (JSVal.str "Traceback (most recent call last): ...") = true
    ∧ segmentCallback
        { exc := JSVal.str "Traceback (most recent call last): ...",
          message := JSVal.undefined }
      = Except.ok { success_message := none, refreshed := false } :=
  ⟨rfl, c4_error_no_success _ rfl⟩

/-- C5: every remote call the flow issues targets the single fixed
method name and carries exactly the three declared arguments: the
segment name from the form, the captured lead names, and the
(possibly absent) description from the form. -/
theorem c5_fixed_method_and_args (lv lv2 : ListViewState)
    (values : FormValues) (rc : RemoteCall)
    (h : createSegmentFlow lv lv2 values = some rc) :
    rc.method = "crm_override.crm_override.api.create_lead_segment"
    ∧ rc.args = { segmentname := fieldValue values "segmentname",
                  lead_names :=
                    (get_checked_items lv).map (fun l => l.name),
                  description := fieldValue values "description" } := by
  unfold createSegmentFlow at h
  split at h
  · exact Option.noConfusion h
  · rename_i fields t p captured heq
    split at h
    · injection h with h1
      subst h1
      rw [(createSegmentClick_prompt_inv lv fields t p captured heq).2]
      exact ⟨rfl, rfl⟩
    · exact Option.noConfusion h

theorem c5_witness :
    createSegmentFlow wListView emptyListView wValues = some wCall
    ∧ (wCall.method = "crm_override.crm_override.api.create_lead_segment"
      ∧ wCall.args
        = { segmentname := fieldValue wValues "segmentname",
            lead_names := (get_checked_items wListView).map (fun l => l.name),
            description := fieldValue wValues "description" }) :=
  ⟨rfl, c5_fixed_method_and_args wListView emptyListView wValues wCall rfl⟩

/-- C6: a submission whose `segmentname` field is blank (absent or the
empty string, i.e. not truthy) is rejected by the form layer, so the
flow issues no remote call. -/
theorem c6_blank_name_rejected (lv lv2 : ListViewState)
    (values : FormValues)
    (h : truthy (fieldValue values "segmentname") = false) :
    createSegmentFlow lv lv2 values = none := by
  unfold createSegmentFlow
  split
  · rfl
  · rename_i fields t p captured heq
    rw [(createSegmentClick_prompt_inv lv fields t p captured heq).1]
    have hacc : formLayerAccepts segmentPromptFields values = false := by
      simp [formLayerAccepts, segmentPromptFields, h]
    rw [hacc]
    rfl

theorem c6_witness :
    truthy (fieldValue [("description", JSVal.str "Test Segment")]
      "segmentname") = false
    ∧ createSegmentFlow wListView emptyListView
        [("description", JSVal.str "Test Segment")] = none :=
  ⟨rfl, c6_blank_name_rejected wListView emptyListView
    [("description", JSVal.str "Test Segment")] rfl⟩

/-- C7: on a successful response whose payload is an object (as the
remote contract promises on success), the callback both shows a
confirmation message and refreshes the list; and on an error response
it neither shows a message nor refreshes, so the refresh happens only
in the success branch. -/
theorem c7_success_message_and_refresh (r : Response) :
    (truthy r.exc = false → isObj r.message = true →
        showsSuccess (segmentCallback r) = true
        ∧ didRefresh (segmentCallback r) = true)
    ∧ (truthy r.exc = true →
        showsSuccess (segmentCallback r) = false
        ∧ didRefresh (segmentCallback r) = false) := by
  constructor
  · intro hexc hobj
    cases hm : r.message with
    | undefined => rw [hm] at hobj; exact Bool.noConfusion hobj
    | null => rw [hm] at hobj; exact Bool.noConfusion hobj
    | str s => rw [hm] at hobj; exact Bool.noConfusion hobj
    | obj fields =>
        unfold segmentCallback
        rw [hexc, hm]
        simp [getProp, showsSuccess, didRefresh]
  · intro hexc
    unfold segmentCallback
    rw [hexc]
    exact ⟨rfl, rfl⟩

theorem c7_witness :
    (truthy JSVal.undefined = false
      ∧ isObj (JSVal.obj [("segmentname", JSVal.str "seg1")]) = true
      ∧ (showsSuccess (segmentCallback
            { exc := JSVal.undefined,
              message := JSVal.obj [("segmentname", JSVal.str "seg1")] }) = true
        ∧ didRefresh (segmentCallback
            { exc := JSVal.undefined,
              message := JSVal.obj [("segmentname", JSVal.str "seg1")] }) = true))
    ∧ (truthy (JSVal.str "ValidationError") = true
      ∧ (showsSuccess (segmentCallback
            { exc := JSVal.str "ValidationError",
              message := JSVal.undefined }) = false
        ∧ didRefresh (segmentCallback
            { exc := JSVal.str "ValidationError",
              message := JSVal.undefined }) = false)) :=
  ⟨⟨rfl, rfl,
    (c7_success_message_and_refresh
      { exc := JSVal.undefined,
        message := JSVal.obj [("segmentname", JSVal.str "seg1")] }).1 rfl rfl⟩,
   ⟨rfl,
    (c7_success_message_and_refresh
      { exc := JSVal.str "ValidationError",
        message := JSVal.undefined }).2 rfl⟩⟩

/-- C8: the success branch dereferences `r.message` without a guard:
on a response with no exception but an `undefined` or `null` payload,
the embedded callback reaches its error branch (a TypeError) instead of
returning normally. -/
theorem c8_unguarded_dereference :
    truthy JSVal.undefined = false
    ∧ segmentCallback { exc := JSVal.undefined, message := JSVal.undefined }
        = Except.error JSError.typeError
    ∧ segmentCallback { exc := JSVal.undefined, message := JSVal.null }
        = Except.error JSError.typeError :=
  ⟨rfl, rfl, rfl⟩

/-- C9: the selection is captured once, at click time: two runs whose
checked items agree at the moment of the click produce the same remote
call (or both produce none), whatever the list-view state has become by
submission time. -/
theorem c9_selection_captured_at_click (lv1 lv2 lv1s lv2s : ListViewState)
    (values : FormValues)
    (h : get_checked_items lv1 = get_checked_items lv2) :
    createSegmentFlow lv1 lv1s values = createSegmentFlow lv2 lv2s values := by
  unfold createSegmentFlow createSegmentClick
  rw [h]

theorem c9_witness :
    get_checked_items wListView = get_checked_items wListViewAlt
    ∧ createSegmentFlow wListView emptyListView wValues
      = createSegmentFlow wListViewAlt wListView wValues :=
  ⟨rfl, c9_selection_captured_at_click wListView wListViewAlt emptyListView
    wListView wValues rfl⟩

/-- C10: the description is forwarded to the remote call verbatim:
whenever a call is issued, its `description` argument is exactly the
form's description field, `undefined` included when it was left
empty. -/
theorem c10_description_verbatim (lv lv2 : ListViewState)
    (values : FormValues) (rc : RemoteCall)
    (h : createSegmentFlow lv lv2 values = some rc) :
    rc.args.description = fieldValue values "description" := by
  unfold createSegmentFlow at h
  split at h
  · exact Option.noConfusion h
  · rename_i fields t p captured heq
    split at h
    · injection h with h1
      subst h1
      rfl
    · exact Option.noConfusion h

theorem c10_witness :
    createSegmentFlow wListView emptyListView wValuesNoDesc
      = some wCallNoDesc
    ∧ fieldValue wValuesNoDesc "description" = JSVal.undefined
    ∧ wCallNoDesc.args.description = fieldValue wValuesNoDesc "description" :=
  ⟨rfl, rfl,
    c10_description_verbatim wListView emptyListView wValuesNoDesc
      wCallNoDesc rfl⟩

/-- C1 counterexample: the claim reads the name from the field `name`,
but the callback reads `r.message.segmentname`.  On the spec's own
success payload `{name: "seg1"}` the displayed message is
"Lead Segment undefined created successfully", which does not include
"seg1". -/
theorem c1_counterexample :
    truthy JSVal.undefined = false
    ∧ segmentCallback
        { exc := JSVal.undefined,
          message := JSVal.obj [("name", JSVal.str "seg1")] }
      = Except.ok
          { success_message :=
              some "Lead Segment undefined created successfully",
            refreshed := true }
    ∧ strContains "Lead Segment undefined created successfully" "seg1"
      = false :=
  ⟨rfl, rfl, rfl⟩

/-- C1 (amended): the callback reads the payload field `segmentname`,
not `name`: for every successful response whose payload carries the
created segment's name under `segmentname`, the displayed confirmation
message includes that exact name. -/
theorem c1_amended_name_displayed (r : Response) (n : String)
    (hexc : truthy r.exc = false)
    (hname : getProp r.message "segmentname" = some (JSVal.str n)) :
    segmentCallback r
      = Except.ok { success_message := some (successMessageText n),
                    refreshed := true }
    ∧ strContains (successMessageText n) n = true := by
  constructor
  · simp [segmentCallback, hexc, hname, jsToString]
  · exact strContains_successMessageText n

theorem c1_amended_witness :
    truthy JSVal.undefined = false
    ∧ getProp (JSVal.obj [("segmentname", JSVal.str "seg1")]) "segmentname"
      = some (JSVal.str "seg1")
    ∧ (segmentCallback
          { exc := JSVal.undefined,
            message := JSVal.obj [("segmentname", JSVal.str "seg1")] }
        = Except.ok { success_message := some (successMessageText "seg1"),
                      refreshed := true }
      ∧ strContains (successMessageText "seg1") "seg1" = true) :=
  ⟨rfl, rfl,
    c1_amended_name_displayed
      { exc := JSVal.undefined,
        message := JSVal.obj [("segmentname", JSVal.str "seg1")] }
      "seg1" rfl rfl⟩
